import Mathlib

/-!
Shallow embedding of the pcb_footprint_generator backend
(src/backend/models.py, generator.py, extraction.py, verification.py),
with theorems settling the specification claims.

Python floats are modelled by ℚ; optional fields by Option; pydantic
construction (which can raise ValidationError) by Option-returning
constructors.  Emission is modelled as the list of lines written, one
constructor per `output.write` pattern.
-/

namespace PCBFoot

/-- models.py PadShape enum. -/
inductive PadShape
| round
| rectangular
| rounded_rectangle
| oval
deriving DecidableEq, Repr

/-- models.py PadType enum (SMD = "smd", THROUGH_HOLE = "th"). -/
inductive PadType
| smd
| through_hole
deriving DecidableEq, Repr

/-- models.py DrillType enum. -/
inductive DrillType
| round
| slot
deriving DecidableEq, Repr

/-- models.py Drill: diameter, optional slot_length, drill_type. -/
structure Drill where
  diameter : ℚ
  slot_length : Option ℚ := none
  drill_type : DrillType := DrillType.round
deriving DecidableEq, Repr

/-- models.py Pad: designator, position, size, rotation, shape, type,
optional drill, confidence (pydantic default 1.0). -/
structure Pad where
  designator : String
  x : ℚ
  y : ℚ
  width : ℚ
  height : ℚ
  rotation : ℚ := 0
  shape : PadShape := PadShape.rectangular
  pad_type : PadType := PadType.smd
  drill : Option Drill := none
  confidence : ℚ := 1
deriving DecidableEq, Repr

/-- models.py Via. -/
structure Via where
  x : ℚ
  y : ℚ
  diameter : ℚ
  drill_diameter : ℚ
deriving DecidableEq, Repr

/-- models.py Outline (line_width default 0.15). -/
structure Outline where
  width : ℚ
  height : ℚ
  line_width : ℚ := 15 / 100
deriving DecidableEq, Repr

/-- models.py Footprint. -/
structure Footprint where
  name : String
  description : String := ""
  pads : List Pad := []
  vias : List Via := []
  outline : Option Outline := none
deriving DecidableEq, Repr

/-- models.py ExtractionResult (overall_confidence default 0.0,
validated to lie in the range 0..1 by pydantic). -/
structure ExtractionResult where
  package_type : String := "custom"
  standard_detected : Option String := none
  units : String := "mm"
  pads : List Pad := []
  vias : List Via := []
  pin1_detected : Bool := false
  pin1_index : Option ℕ := none
  outline : Option Outline := none
  overall_confidence : ℚ := 0
  warnings : List String := []
deriving DecidableEq, Repr

/-- pydantic construction of Drill.  models.py declares no value
constraint on any Drill field, so construction always succeeds. -/
def mkDrill (diameter : ℚ) (slot_length : Option ℚ) (drill_type : DrillType) :
    Option Drill :=
  some { diameter := diameter, slot_length := slot_length, drill_type := drill_type }

/-- pydantic construction of Pad.  The only value constraint declared in
models.py is `confidence: ge=0.0, le=1.0`; no field constrains the
dimensions or the designator. -/
def mkPad (designator : String) (x y width height rotation : ℚ)
    (shape : PadShape) (pad_type : PadType) (drill : Option Drill)
    (confidence : ℚ) : Option Pad :=
  if 0 ≤ confidence ∧ confidence ≤ 1 then
    some { designator := designator, x := x, y := y, width := width,
           height := height, rotation := rotation, shape := shape,
           pad_type := pad_type, drill := drill, confidence := confidence }
  else none

/-- pydantic construction of Via: no value constraints in models.py. -/
def mkVia (x y diameter drill_diameter : ℚ) : Option Via :=
  some { x := x, y := y, diameter := diameter, drill_diameter := drill_diameter }

/-- pydantic construction of Outline: no value constraints in models.py. -/
def mkOutline (width height line_width : ℚ) : Option Outline :=
  some { width := width, height := height, line_width := line_width }

/-- pydantic construction of ExtractionResult.  The only value constraint
is `overall_confidence: ge=0.0, le=1.0` (Pad-level validation has already
happened on the pads handed in). -/
def mkExtractionResult (package_type : String) (standard_detected : Option String)
    (units : String) (pads : List Pad) (vias : List Via)
    (pin1_detected : Bool) (pin1_index : Option ℕ) (outline : Option Outline)
    (overall_confidence : ℚ) (warnings : List String) :
    Option ExtractionResult :=
  if 0 ≤ overall_confidence ∧ overall_confidence ≤ 1 then
    some { package_type := package_type, standard_detected := standard_detected,
           units := units, pads := pads, vias := vias,
           pin1_detected := pin1_detected, pin1_index := pin1_index,
           outline := outline, overall_confidence := overall_confidence,
           warnings := warnings }
  else none

/-- Python `min` over a nonempty list (junk value 0 on []; every use in
the source is guarded by a nonemptiness test). -/
def pyMin : List ℚ → ℚ
| [] => 0
| a :: as_ => as_.foldl min a

/-- Python `max` over a nonempty list (junk value 0 on []). -/
def pyMax : List ℚ → ℚ
| [] => 0
| a :: as_ => as_.foldl max a

/-- models.py Footprint.get_bounds: (0,0,0,0) when there are no pads,
otherwise min/max of each pad extent, ignoring rotation. -/
def Footprint.get_bounds (f : Footprint) : ℚ × ℚ × ℚ × ℚ :=
  match f.pads with
  | [] => (0, 0, 0, 0)
  | _ :: _ =>
    (pyMin (f.pads.map (fun p => p.x - p.width / 2)),
     pyMin (f.pads.map (fun p => p.y - p.height / 2)),
     pyMax (f.pads.map (fun p => p.x + p.width / 2)),
     pyMax (f.pads.map (fun p => p.y + p.height / 2)))

/-!
generator.py — Altium .PcbLib ASCII emission.  Every `output.write` of the
source is modelled by one `Line`; the record-ID counter `self._record_id`
(initialised to 0 by `__init__`) is threaded explicitly.
-/

/-- One written line of the ASCII output.  `text` is a literal line,
`sec` a "[Name]" section tag, `kvInt`/`kvStr` plain Key=Value lines,
`kvCoord`/`kvDim` Key=Value lines whose value is a 3-decimal number with
"mm" suffix, `kvRot` a 3-decimal number with no suffix, `blank` the empty
line. -/
inductive Line
| text (s : String)
| sec (name : String)
| kvInt (key : String) (n : ℕ)
| kvStr (key : String) (v : String)
| kvCoord (key : String) (q : ℚ)
| kvDim (key : String) (q : ℚ)
| kvRot (key : String) (q : ℚ)
| blank
deriving DecidableEq, Repr

/-- generator.py SHAPE_MAP lookup with default SHAPE_RECTANGULAR. -/
def shapeName : PadShape → String
| PadShape.round => "Round"
| PadShape.rectangular => "Rectangular"
| PadShape.rounded_rectangle => "Rounded Rectangle"
| PadShape.oval => "Oval"

/-- Python truthiness of an Optional[float]: None and 0.0 are falsy. -/
def pyTruthyQ : Option ℚ → Bool
| none => false
| some q => q ≠ 0

/-- Python truthiness of an Optional[str]: None and "" are falsy. -/
def pyTruthyS : Option String → Bool
| none => false
| some s => s ≠ ""

/-- generator.py _write_header. -/
def writeHeader : List Line :=
  [Line.text "PCB Library Document", Line.text "Version=1.0",
   Line.text "Encoding=UTF-8", Line.blank]

/-- generator.py _write_footer. -/
def writeFooter : List Line :=
  [Line.blank, Line.text "End PCB Library"]

/-- generator.py _write_component_record (rid is the counter value before
the call; the record consumes id rid+1). -/
def writeComponentRecord (f : Footprint) (rid : ℕ) : List Line × ℕ :=
  ([Line.sec "Component", Line.kvStr "Name" f.name]
    ++ (if f.description ≠ "" then [Line.kvStr "Description" f.description] else [])
    ++ [Line.kvInt "RecordID" (rid + 1), Line.blank],
   rid + 1)

/-- generator.py _write_drill_info (only called for a through-hole pad
whose drill is present). -/
def writeDrillInfo (d : Drill) : List Line :=
  [Line.kvDim "HoleSize" d.diameter]
    ++ (if d.drill_type = DrillType.slot ∧ pyTruthyQ d.slot_length then
          [Line.kvStr "DrillType" "Slot",
           Line.kvDim "SlotLength" (d.slot_length.getD 0)]
        else [Line.kvStr "DrillType" "Round"])

/-- generator.py _write_pad_record. -/
def writePadRecord (p : Pad) (rid : ℕ) : List Line × ℕ :=
  ([Line.sec "Pad", Line.kvInt "RecordID" (rid + 1),
    Line.kvStr "Designator" p.designator,
    Line.kvStr "Layer" (if p.pad_type = PadType.smd then "Top Layer" else "MultiLayer"),
    Line.kvCoord "X" p.x, Line.kvCoord "Y" p.y,
    Line.kvRot "Rotation" p.rotation,
    Line.kvStr "Shape" (shapeName p.shape),
    Line.kvDim "XSize" p.width, Line.kvDim "YSize" p.height]
    ++ (match p.pad_type, p.drill with
        | PadType.through_hole, some d => writeDrillInfo d
        | _, _ => [])
    ++ [Line.blank],
   rid + 1)

/-- generator.py _write_via_record. -/
def writeViaRecord (v : Via) (rid : ℕ) : List Line × ℕ :=
  ([Line.sec "Via", Line.kvInt "RecordID" (rid + 1),
    Line.kvStr "Layer" "MultiLayer",
    Line.kvCoord "X" v.x, Line.kvCoord "Y" v.y,
    Line.kvDim "Diameter" v.diameter, Line.kvDim "HoleSize" v.drill_diameter,
    Line.blank],
   rid + 1)

/-- The pad loop of generator.py generate. -/
def writePadList : List Pad → ℕ → List Line × ℕ
| [], rid => ([], rid)
| p :: ps, rid =>
  let r := writePadRecord p rid
  let rest := writePadList ps r.2
  (r.1 ++ rest.1, rest.2)

/-- The via loop of generator.py generate. -/
def writeViaList : List Via → ℕ → List Line × ℕ
| [], rid => ([], rid)
| v :: vs, rid =>
  let r := writeViaRecord v rid
  let rest := writeViaList vs r.2
  (r.1 ++ rest.1, rest.2)

/-- One Track record of generator.py _write_outline_tracks. -/
def writeTrack (x1 y1 x2 y2 lw : ℚ) (rid : ℕ) : List Line × ℕ :=
  ([Line.sec "Track", Line.kvInt "RecordID" (rid + 1),
    Line.kvStr "Layer" "Top Overlay",
    Line.kvCoord "X1" x1, Line.kvCoord "Y1" y1,
    Line.kvCoord "X2" x2, Line.kvCoord "Y2" y2,
    Line.kvDim "Width" lw, Line.blank],
   rid + 1)

/-- generator.py _write_outline_tracks: four Track records
bottom-left → bottom-right → top-right → top-left → close. -/
def writeOutlineTracks (o : Outline) (rid : ℕ) : List Line × ℕ :=
  let hw := o.width / 2
  let hh := o.height / 2
  let t1 := writeTrack (-hw) (-hh) hw (-hh) o.line_width rid
  let t2 := writeTrack hw (-hh) hw hh o.line_width t1.2
  let t3 := writeTrack hw hh (-hw) hh o.line_width t2.2
  let t4 := writeTrack (-hw) hh (-hw) (-hh) o.line_width t3.2
  (t1.1 ++ t2.1 ++ t3.1 ++ t4.1, t4.2)

/-- generator.py _find_pin1: pad whose designator equals "1", else the
first pad, else None. -/
def findPin1 (f : Footprint) : Option Pad :=
  match f.pads.find? (fun p => p.designator = "1") with
  | some p => some p
  | none => f.pads.head?

/-- generator.py _write_pin1_indicator: the indicator X coordinate,
offset 0.5mm from the pad centre away from the origin. -/
def indicatorX (x : ℚ) : ℚ := if x < 0 then x - 1/2 else x + 1/2

/-- generator.py _write_pin1_indicator: the indicator Y coordinate. -/
def indicatorY (y : ℚ) : ℚ := if 0 < y then y + 1/2 else y - 1/2

/-- generator.py _write_pin1_indicator: emits one Arc record for Pin 1,
or nothing when the footprint has no pads. -/
def writePin1Indicator (f : Footprint) (rid : ℕ) : List Line × ℕ :=
  match findPin1 f with
  | none => ([], rid)
  | some p =>
    ([Line.sec "Arc", Line.kvInt "RecordID" (rid + 1),
      Line.kvStr "Layer" "Top Overlay",
      Line.kvCoord "X" (indicatorX p.x), Line.kvCoord "Y" (indicatorY p.y),
      Line.text "Radius=0.25mm", Line.text "StartAngle=0",
      Line.text "EndAngle=360", Line.text "Width=0.15mm", Line.blank],
     rid + 1)

/-- generator.py AltiumGenerator.generate, with the record-ID counter
threaded explicitly (rid is `self._record_id` on entry). -/
def generate (f : Footprint) (rid : ℕ) : List Line × ℕ :=
  let c := writeComponentRecord f rid
  let ps := writePadList f.pads c.2
  let vs := writeViaList f.vias ps.2
  let rest :=
    match f.outline with
    | some o =>
      let t := writeOutlineTracks o vs.2
      let a := writePin1Indicator f t.2
      (t.1 ++ a.1, a.2)
    | none => ([], vs.2)
  (writeHeader ++ c.1 ++ ps.1 ++ vs.1 ++ rest.1 ++ writeFooter, rest.2)

/-- generator.py generate_pcblib: a fresh AltiumGenerator (counter 0) is
constructed on every call, then generate() runs. -/
def generate_pcblib (f : Footprint) : List Line := (generate f 0).1

/-- Decimal rendering of m with exactly three fractional digits, m being
the value scaled by 1000 (models the rendering of Python `:.3f`). -/
def fmtScaled (m : ℤ) : String :=
  let a := m.natAbs
  let frac := a % 1000
  let fracStr :=
    if frac < 10 then "00" ++ toString frac
    else if frac < 100 then "0" ++ toString frac
    else toString frac
  (if m < 0 then "-" else "") ++ toString (a / 1000) ++ "." ++ fracStr

/-- Round a rational to the nearest integer, ties to even (the rounding
used by Python float formatting). -/
def roundHalfEven (q : ℚ) : ℤ :=
  if Int.fract q < 1/2 then ⌊q⌋
  else if 1/2 < Int.fract q then ⌊q⌋ + 1
  else if ⌊q⌋ % 2 = 0 then ⌊q⌋ else ⌊q⌋ + 1

/-- Python f-string `{v:.3f}` on our rational model. -/
def fmt3 (q : ℚ) : String := fmtScaled (roundHalfEven (q * 1000))

/-- Render one emitted line to its exact output text (with newline). -/
def renderLine : Line → String
| Line.text s => s ++ "\n"
| Line.sec n => "[" ++ n ++ "]\n"
| Line.kvInt k n => k ++ "=" ++ toString n ++ "\n"
| Line.kvStr k v => k ++ "=" ++ v ++ "\n"
| Line.kvCoord k q => k ++ "=" ++ fmt3 q ++ "mm\n"
| Line.kvDim k q => k ++ "=" ++ fmt3 q ++ "mm\n"
| Line.kvRot k q => k ++ "=" ++ fmt3 q ++ "\n"
| Line.blank => "\n"

/-- The full ASCII text produced for a footprint (generator.py
generate_pcblib rendered to one string). -/
def emit_ascii (f : Footprint) : String :=
  String.join ((generate_pcblib f).map renderLine)

/-- The RecordID values of an emission, in order of appearance. -/
def recordIds (lines : List Line) : List ℕ :=
  lines.filterMap (fun l =>
    match l with
    | Line.kvInt "RecordID" n => some n
    | _ => none)

/-- Number of "[Arc]" section tags in an emission. -/
def countArcs (lines : List Line) : ℕ :=
  (lines.filter (fun l => l = Line.sec "Arc")).length

/-!
extraction.py — FootprintExtractor._response_to_footprint, the
normalizer turning a parsed JSON response into (Footprint,
ExtractionResult).  The raw dict is modelled structurally: each
`.get(key, default)` becomes an Option field with getD.
-/

/-- One entry of response["pads"]: every field the normalizer reads,
as Optional (absent key = none).  The per-pad "confidence" key is part
of the documented input contract but `_response_to_footprint` never
reads it. -/
structure RawPad where
  designator : Option String := none
  x : Option ℚ := none
  y : Option ℚ := none
  width : Option ℚ := none
  height : Option ℚ := none
  rotation : Option ℚ := none
  shape : Option String := none
  pad_type : Option String := none
  drill_diameter : Option ℚ := none
  drill_slot_length : Option ℚ := none
  confidence : Option ℚ := none
deriving DecidableEq, Repr

/-- One entry of response["vias"]. -/
structure RawVia where
  x : Option ℚ := none
  y : Option ℚ := none
  outer_diameter : Option ℚ := none
  drill_diameter : Option ℚ := none
deriving DecidableEq, Repr

/-- response["outline"]. -/
structure RawOutline where
  width : Option ℚ := none
  height : Option ℚ := none
deriving DecidableEq, Repr

/-- response["pin1_location"]. -/
structure RawPin1 where
  designator : Option String := none
deriving DecidableEq, Repr

/-- The parsed JSON response object, restricted to the keys
`_response_to_footprint` reads. -/
structure RawResponse where
  pads : Option (List RawPad) := none
  vias : Option (List RawVia) := none
  outline : Option RawOutline := none
  footprint_name : Option String := none
  standard_package_detected : Option String := none
  pin1_location : Option RawPin1 := none
  overall_confidence : Option ℚ := none
  warnings : Option (List String) := none
deriving DecidableEq, Repr

/-- extraction.py shape_map lookup (on the lower-cased shape string,
default "rectangular", unknown tokens fall back to RECTANGULAR). -/
def shapeFromStr (s : String) : PadShape :=
  if s = "rectangular" then PadShape.rectangular
  else if s = "round" then PadShape.round
  else if s = "oval" then PadShape.oval
  else if s = "rounded_rectangle" then PadShape.rounded_rectangle
  else PadShape.rectangular

/-- Conversion of one raw pad entry inside `_response_to_footprint`:
missing numerics default to 0, the Pad is built without a confidence
argument so pydantic's default 1.0 applies, and a drill is built only
for a through-hole pad whose drill_diameter is truthy. -/
def convPad (rp : RawPad) : Pad :=
  let shape := shapeFromStr (rp.shape.getD "rectangular").toLower
  let pad_type :=
    if (rp.pad_type.getD "smd").toLower = "th" then PadType.through_hole
    else PadType.smd
  let drill : Option Drill :=
    if pad_type = PadType.through_hole ∧ pyTruthyQ rp.drill_diameter then
      some { diameter := rp.drill_diameter.getD 0,
             slot_length := rp.drill_slot_length,
             drill_type :=
               if pyTruthyQ rp.drill_slot_length then DrillType.slot
               else DrillType.round }
    else none
  { designator := rp.designator.getD "",
    x := rp.x.getD 0, y := rp.y.getD 0,
    width := rp.width.getD 0, height := rp.height.getD 0,
    rotation := rp.rotation.getD 0,
    shape := shape, pad_type := pad_type, drill := drill,
    confidence := 1 }

/-- Conversion of one raw via entry: x and y default to 0, the outer
diameter to 0.6 and the drill diameter to 0.3. -/
def convVia (rv : RawVia) : Via :=
  { x := rv.x.getD 0, y := rv.y.getD 0,
    diameter := rv.outer_diameter.getD (6/10),
    drill_diameter := rv.drill_diameter.getD (3/10) }

/-- extraction.py FootprintExtractor._response_to_footprint.  Fails
(pydantic ValidationError) only when the supplied overall_confidence is
outside the range 0..1; the fallback when the key is absent is 0.5. -/
def responseToFootprint (r : RawResponse) :
    Option (Footprint × ExtractionResult) := do
  let pads := (r.pads.getD []).map convPad
  let outlineData := r.outline.getD {}
  let outline : Outline :=
    { width := outlineData.width.getD 0, height := outlineData.height.getD 0 }
  let vias := (r.vias.getD []).map convVia
  let footprint : Footprint :=
    { name := r.footprint_name.getD "EXTRACTED",
      description := "Extracted from datasheet image",
      pads := pads, vias := vias, outline := some outline }
  let pin1Designator := (r.pin1_location.getD {}).designator
  let pin1Index :=
    if pyTruthyS pin1Designator then
      pads.findIdx? (fun p => p.designator = pin1Designator.getD "")
    else none
  let er ← mkExtractionResult "custom" r.standard_package_detected "mm"
      pads vias pin1Index.isSome pin1Index (some outline)
      (r.overall_confidence.getD (1/2)) (r.warnings.getD [])
  return (footprint, er)

/-!
verification.py — suspicious-value detection and correction application.
-/

/-- verification.py VerificationResult dataclass. -/
structure VerificationResult where
  verified : Bool
  pad_dimensions_corrected : Bool := false
  corrected_pad_width : Option ℚ := none
  corrected_pad_height : Option ℚ := none
  dimension_issue : Option String := none
  pad_count_corrected : Bool := false
  corrected_pad_count : Option ℤ := none
  thermal_pad_issue : Option String := none
  confidence : ℚ := 0
  input_tokens : ℕ := 0
  output_tokens : ℕ := 0
  error : Option String := none
deriving DecidableEq, Repr

/-- The thermal-pad designator alias tuple ("EP", "9", "thermal"). -/
def thermalAliases : List String := ["EP", "9", "thermal"]

/-- Membership of a pad in the thermal alias set. -/
def isThermal (p : Pad) : Bool := p.designator ∈ thermalAliases

/-- The signal pads of an extraction (pads whose designator is not a
thermal alias), in list order. -/
def signalPads (e : ExtractionResult) : List Pad :=
  e.pads.filter (fun p => ¬ isThermal p)

/-- The sort key comparison `(p.x, p.y) ≤ (q.x, q.y)` (lexicographic)
used by detect_suspicious_values. -/
def padKeyLe (p q : Pad) : Bool := p.x < q.x ∨ (p.x = q.x ∧ p.y ≤ q.y)

/-- Stable insertion: an element is placed before the first existing
element it compares ≤ to, hence after all earlier elements with an equal
key. -/
def insertPad (p : Pad) : List Pad → List Pad
| [] => [p]
| q :: qs => if padKeyLe p q then p :: q :: qs else q :: insertPad p qs

/-- Python `sorted(signal_pads, key=lambda p: (p.x, p.y))`.  Python's
sort is stable, and a stable sort under a total preorder is unique, so
stable insertion sort models it exactly. -/
def sortByKey (l : List Pad) : List Pad := l.foldr insertPad []

/-- The pitch-sample loop of detect_suspicious_values: for consecutive
pads in the sorted list, keep |Δy| when |Δx| < 0.5 and |Δy| > 0.1. -/
def consecutivePitches : List Pad → List ℚ
| p1 :: p2 :: rest =>
  (if |p1.x - p2.x| < 1/2 ∧ 1/10 < |p1.y - p2.y| then [|p1.y - p2.y|] else [])
    ++ consecutivePitches (p2 :: rest)
| _ => []

/-- The pitch samples detect_suspicious_values derives from an
extraction. -/
def pitchSamples (e : ExtractionResult) : List ℚ :=
  consecutivePitches (sortByKey (signalPads e))

/-- avg_pitch = sum(pitches) / len(pitches). -/
def avgPitch (e : ExtractionResult) : ℚ :=
  (pitchSamples e).sum / (pitchSamples e).length

/-- width_ratio of the first signal pad (0 when the average pitch is not
positive, mirroring the source's guard). -/
def widthRatio (e : ExtractionResult) : ℚ :=
  match signalPads e with
  | [] => 0
  | p :: _ => if 0 < avgPitch e then p.width / avgPitch e else 0

/-- height_ratio of the first signal pad. -/
def heightRatio (e : ExtractionResult) : ℚ :=
  match signalPads e with
  | [] => 0
  | p :: _ => if 0 < avgPitch e then p.height / avgPitch e else 0

/-- Python `any(p.designator in ("EP","9","thermal") for p in pads)`. -/
def hasThermal (e : ExtractionResult) : Bool := e.pads.any isThermal

/-- The reasons detect_suspicious_values can append, modelled
structurally (the source renders them as message strings). -/
inductive Reason
| dimMatchesPitch (pad_width pad_height avg_pitch : ℚ)
| noThermalManyPads
deriving DecidableEq, Repr

/-- The dict returned by detect_suspicious_values. -/
structure Suspicious where
  needs_verification : Bool := false
  reasons : List Reason := []
  likely_pitch : Option ℚ := none
deriving DecidableEq, Repr

/-- verification.py detect_suspicious_values. -/
def detect_suspicious_values (e : ExtractionResult) : Suspicious :=
  if e.pads = [] then {}
  else if signalPads e = [] then {}
  else
    let s1 : Suspicious :=
      if 2 ≤ (signalPads e).length ∧ pitchSamples e ≠ [] ∧
         ((90/100 ≤ widthRatio e ∧ widthRatio e ≤ 110/100) ∨
          (90/100 ≤ heightRatio e ∧ heightRatio e ≤ 110/100)) then
        { needs_verification := true,
          reasons :=
            match signalPads e with
            | [] => []
            | p :: _ => [Reason.dimMatchesPitch p.width p.height (avgPitch e)],
          likely_pitch := some (avgPitch e) }
      else {}
    if ¬ hasThermal e ∧ 8 ≤ (signalPads e).length then
      { s1 with needs_verification := true,
                reasons := s1.reasons ++ [Reason.noThermalManyPads] }
    else s1

/-- Python `verification.corrected_pad_width or pad.width`: the left
operand wins only when it is present and truthy (non-zero). -/
def pyOrQ (o : Option ℚ) (d : ℚ) : ℚ :=
  match o with
  | some q => if q = 0 then d else q
  | none => d

/-- The pad-correction loop of apply_corrections: thermal-aliased pads
are kept as-is, other pads are rebuilt via the pydantic Pad constructor
carrying the verification confidence. -/
def correctedPadsList (v : VerificationResult) : List Pad → Option (List Pad)
| [] => some []
| p :: ps =>
  if isThermal p then do
    let rest ← correctedPadsList v ps
    return p :: rest
  else do
    let q ← mkPad p.designator p.x p.y (pyOrQ v.corrected_pad_width p.width)
        (pyOrQ v.corrected_pad_height p.height) p.rotation p.shape
        p.pad_type p.drill v.confidence
    let rest ← correctedPadsList v ps
    return q :: rest

/-- The warning lines apply_corrections appends (Python truthiness:
a present-but-empty issue string appends nothing). -/
def correctionWarnings (v : VerificationResult) : List String :=
  (if pyTruthyS v.dimension_issue then
     ["Corrected: " ++ v.dimension_issue.getD ""] else [])
    ++ (if pyTruthyS v.thermal_pad_issue then
          ["Thermal pad: " ++ v.thermal_pad_issue.getD ""] else [])

/-- verification.py apply_corrections.  Returns none when a pydantic
constructor raises (confidence out of range). -/
def apply_corrections (e : ExtractionResult) (v : VerificationResult) :
    Option ExtractionResult :=
  if v.verified ∧ ¬ v.pad_dimensions_corrected then some e
  else do
    let pads ← correctedPadsList v e.pads
    mkExtractionResult e.package_type e.standard_detected e.units pads
      e.vias e.pin1_detected e.pin1_index e.outline v.confidence
      (e.warnings ++ correctionWarnings v)

/-!
Derived definitions and concrete instances used by the theorems.
-/

/-- The number of records (hence RecordIDs) the generator emits. -/
def expectedCount (f : Footprint) : ℕ :=
  1 + f.pads.length + f.vias.length +
    (match f.outline with
     | some _ => 4 + (if f.pads = [] then 0 else 1)
     | none => 0)

/-- Footprint with an outline and no pads: the scenario on which the
claimed N formula fails. -/
def outlineOnlyFp : Footprint :=
  { name := "U1", outline := some { width := 2, height := 2 } }

/-- The Pin-1 pad as the claim describes it: the pad whose designator is
exactly "1", or the head pad (here the nonemptiness is given by handing
in the head explicitly). -/
def pin1Choice (f : Footprint) (p : Pad) : Pad :=
  (f.pads.find? (fun q => q.designator = "1")).getD p

/-- Footprint with an outline and no pads, used to witness the Pin-1
claim's empty-pad branch. -/
def arcFreeFp : Footprint :=
  { name := "W7", outline := some { width := 4, height := 4 } }

/-- A through-hole pad with a round drill. -/
def roundDrillPad : Pad :=
  { designator := "1", x := 0, y := 0, width := 3/2, height := 3/2,
    shape := PadShape.round, pad_type := PadType.through_hole,
    drill := some { diameter := 9/10 } }

/-- A through-hole pad whose drill has kind Slot and a present slot
length of 0.0 (present but falsy for Python). -/
def slotZeroPad : Pad :=
  { designator := "3", x := 0, y := 0, width := 1, height := 1,
    pad_type := PadType.through_hole,
    drill := some { diameter := 1, slot_length := some 0,
                    drill_type := DrillType.slot } }

/-- A raw response containing one via with every field missing. -/
def rawViaOnly : RawResponse := { vias := some [{}] }

/-- A verification result that is unverified and carries no dimension
correction (e.g. the parse-failure path). -/
def unverifiedRes : VerificationResult := { verified := false }

/-- An extraction with one fully-confident pad. -/
def onePadEx : ExtractionResult :=
  { pads := [{ designator := "1", x := 0, y := 0, width := 1, height := 2 }] }

/-- The pointwise relation between an input pad and its corrected
counterpart: thermal-aliased pads pass through unmodified, other pads
keep all geometry except width/height (Python or-fallback) and carry the
verification confidence. -/
def CorrectedPadRel (v : VerificationResult) (p q : Pad) : Prop :=
  (isThermal p = true → q = p)
  ∧ (isThermal p = false →
      q.designator = p.designator ∧ q.x = p.x ∧ q.y = p.y
      ∧ q.width = pyOrQ v.corrected_pad_width p.width
      ∧ q.height = pyOrQ v.corrected_pad_height p.height
      ∧ q.rotation = p.rotation ∧ q.shape = p.shape
      ∧ q.pad_type = p.pad_type ∧ q.drill = p.drill
      ∧ q.confidence = v.confidence)

/-- An extraction with a thermal "EP" pad and a signal pad. -/
def thermalCaseEx : ExtractionResult :=
  { pads := [{ designator := "EP", x := 0, y := 0, width := 5, height := 5 },
             { designator := "1", x := 1, y := 1, width := 1, height := 2 }] }

/-- A verification carrying a width correction. -/
def widthCorrRes : VerificationResult :=
  { verified := false, pad_dimensions_corrected := true,
    corrected_pad_width := some 2, confidence := 1 }

/-- An extraction with one signal pad of width 3. -/
def zeroWidthEx : ExtractionResult :=
  { pads := [{ designator := "A", x := 0, y := 0, width := 3, height := 3 }] }

/-- A verification whose dimension correction carries a present
corrected width of 0.0. -/
def zeroWidthCorr : VerificationResult :=
  { verified := true, pad_dimensions_corrected := true,
    corrected_pad_width := some 0, confidence := 1 }

/-- Eight signal pads, no thermal alias. -/
def eightPadEx : ExtractionResult :=
  { pads := [{ designator := "1", x := 0, y := 0, width := 1, height := 1 },
             { designator := "2", x := 0, y := 1, width := 1, height := 1 },
             { designator := "3", x := 0, y := 2, width := 1, height := 1 },
             { designator := "4", x := 0, y := 3, width := 1, height := 1 },
             { designator := "5", x := 0, y := 4, width := 1, height := 1 },
             { designator := "6", x := 0, y := 5, width := 1, height := 1 },
             { designator := "7", x := 0, y := 6, width := 1, height := 1 },
             { designator := "8", x := 0, y := 7, width := 1, height := 1 }] }

/-- Two signal pads on one side, pitch 1mm, pad width 1mm (the spec's
width≈pitch scenario rescaled to integers). -/
def twoPadEx : ExtractionResult :=
  { pads := [{ designator := "1", x := -2, y := 1, width := 1, height := 1 },
             { designator := "2", x := -2, y := 0, width := 1, height := 1 }] }

/-- The claim's pitch, modelled from the claim's words: the average of
ALL consecutive |Δy| among (x,y)-sorted signal pads on the same side
(|Δx| within the 0.5mm tolerance) — with no further filtering of small
samples.  Used only to compare the claim against the source, which
additionally discards samples ≤ 0.1mm. -/
def specDyList : List Pad → List ℚ
| p1 :: p2 :: rest =>
  (if |p1.x - p2.x| < 1/2 then [|p1.y - p2.y|] else []) ++ specDyList (p2 :: rest)
| _ => []

/-- The claim-worded average pitch (none when no sample exists). -/
def specAvgPitch (e : ExtractionResult) : Option ℚ :=
  let l := specDyList (sortByKey (signalPads e))
  if l = [] then none else some (l.sum / l.length)

/-- Three signal pads at y = 0, 0.1, 1.1 with width and height 0.55:
the claim's pitch (average of ALL consecutive |Δy|) is 0.55, giving
ratio 1.0 — inside the suspicion window — yet the source discards the
0.1mm sample, computes pitch 1.0 and ratio 0.55, and does not flag. -/
def pitchGapEx : ExtractionResult :=
  { pads := [{ designator := "1", x := 0, y := 0, width := 11/20, height := 11/20 },
             { designator := "2", x := 0, y := 1/10, width := 11/20, height := 11/20 },
             { designator := "3", x := 0, y := 11/10, width := 11/20, height := 11/20 }] }

/-!
Helper lemmas.
-/

lemma foldl_min_le_init (l : List ℚ) : ∀ a : ℚ, List.foldl min a l ≤ a := by
  induction l with
  | nil => intro a; simp
  | cons b t ih =>
    intro a
    simpa using le_trans (ih (min a b)) (min_le_left a b)

lemma foldl_min_le_mem (l : List ℚ) : ∀ a y : ℚ, y ∈ l → List.foldl min a l ≤ y := by
  induction l with
  | nil => intro a y hy; cases hy
  | cons b t ih =>
    intro a y hy
    rcases List.mem_cons.mp hy with rfl | h
    · simpa using le_trans (foldl_min_le_init t (min a y)) (min_le_right a y)
    · simpa using ih (min a b) y h

lemma foldl_min_mem (l : List ℚ) : ∀ a : ℚ, List.foldl min a l = a ∨ List.foldl min a l ∈ l := by
  induction l with
  | nil => intro a; left; rfl
  | cons b t ih =>
    intro a
    rcases ih (min a b) with h | h
    · rcases min_choice a b with hab | hab
      · left; simpa [hab] using h
      · right; simp only [List.foldl_cons]
        rw [h, hab]; exact List.mem_cons_self b t
    · right; simp only [List.foldl_cons]
      exact List.mem_cons_of_mem b h

lemma pyMin_le {l : List ℚ} {y : ℚ} (hy : y ∈ l) : pyMin l ≤ y := by
  cases l with
  | nil => cases hy
  | cons a t =>
    rcases List.mem_cons.mp hy with rfl | h
    · exact foldl_min_le_init t y
    · exact foldl_min_le_mem t a y h

lemma pyMin_mem {l : List ℚ} (hl : l ≠ []) : pyMin l ∈ l := by
  cases l with
  | nil => exact absurd rfl hl
  | cons a t =>
    rcases foldl_min_mem t a with h | h
    · simp [pyMin, h]
    · simp [pyMin]; right; exact h

lemma foldl_max_ge_init (l : List ℚ) : ∀ a : ℚ, a ≤ List.foldl max a l := by
  induction l with
  | nil => intro a; simp
  | cons b t ih =>
    intro a
    simpa using le_trans (le_max_left a b) (ih (max a b))

lemma foldl_max_ge_mem (l : List ℚ) : ∀ a y : ℚ, y ∈ l → y ≤ List.foldl max a l := by
  induction l with
  | nil => intro a y hy; cases hy
  | cons b t ih =>
    intro a y hy
    rcases List.mem_cons.mp hy with rfl | h
    · simpa using le_trans (le_max_right a y) (foldl_max_ge_init t (max a y))
    · simpa using ih (max a b) y h

lemma foldl_max_mem (l : List ℚ) : ∀ a : ℚ, List.foldl max a l = a ∨ List.foldl max a l ∈ l := by
  induction l with
  | nil => intro a; left; rfl
  | cons b t ih =>
    intro a
    rcases ih (max a b) with h | h
    · rcases max_choice a b with hab | hab
      · left; simpa [hab] using h
      · right; simp only [List.foldl_cons]
        rw [h, hab]; exact List.mem_cons_self b t
    · right; simp only [List.foldl_cons]
      exact List.mem_cons_of_mem b h

lemma pyMax_ge {l : List ℚ} {y : ℚ} (hy : y ∈ l) : y ≤ pyMax l := by
  cases l with
  | nil => cases hy
  | cons a t =>
    rcases List.mem_cons.mp hy with rfl | h
    · exact foldl_max_ge_init t y
    · exact foldl_max_ge_mem t a y h

lemma pyMax_mem {l : List ℚ} (hl : l ≠ []) : pyMax l ∈ l := by
  cases l with
  | nil => exact absurd rfl hl
  | cons a t =>
    rcases foldl_max_mem t a with h | h
    · simp [pyMax, h]
    · simp [pyMax]; right; exact h

/-!
Claim theorems.
-/

/-- Claim C10 (confirmed): Footprint.get_bounds returns (0,0,0,0) on an
empty pad list, and otherwise the componentwise min of x−w/2 and y−h/2
and max of x+w/2 and y+h/2 over all pads, ignoring rotation (rotation
never enters the computation). -/
theorem get_bounds_spec (f : Footprint) :
    (f.pads = [] → f.get_bounds = (0, 0, 0, 0))
    ∧ (f.pads ≠ [] →
        (∀ p ∈ f.pads,
           f.get_bounds.1 ≤ p.x - p.width / 2
           ∧ f.get_bounds.2.1 ≤ p.y - p.height / 2
           ∧ p.x + p.width / 2 ≤ f.get_bounds.2.2.1
           ∧ p.y + p.height / 2 ≤ f.get_bounds.2.2.2)
        ∧ (∃ p ∈ f.pads, f.get_bounds.1 = p.x - p.width / 2)
        ∧ (∃ p ∈ f.pads, f.get_bounds.2.1 = p.y - p.height / 2)
        ∧ (∃ p ∈ f.pads, f.get_bounds.2.2.1 = p.x + p.width / 2)
        ∧ (∃ p ∈ f.pads, f.get_bounds.2.2.2 = p.y + p.height / 2)) := by
  constructor
  · intro h
    simp [Footprint.get_bounds, h]
  · intro h
    obtain ⟨p0, ps, hp⟩ := List.exists_cons_of_ne_nil h
    have hb : f.get_bounds =
        (pyMin (f.pads.map (fun p => p.x - p.width / 2)),
         pyMin (f.pads.map (fun p => p.y - p.height / 2)),
         pyMax (f.pads.map (fun p => p.x + p.width / 2)),
         pyMax (f.pads.map (fun p => p.y + p.height / 2))) := by
      rw [Footprint.get_bounds, hp]
    have hne : ∀ g : Pad → ℚ, f.pads.map g ≠ [] := by
      intro g hcon
      rw [hp] at hcon
      simp at hcon
    refine ⟨?_, ?_, ?_, ?_, ?_⟩
    · intro p hmem
      rw [hb]
      exact ⟨pyMin_le (List.mem_map_of_mem _ hmem),
             pyMin_le (List.mem_map_of_mem _ hmem),
             pyMax_ge (List.mem_map_of_mem _ hmem),
             pyMax_ge (List.mem_map_of_mem _ hmem)⟩
    · obtain ⟨p, hpm, hpe⟩ := List.mem_map.mp (pyMin_mem (hne (fun p => p.x - p.width / 2)))
      exact ⟨p, hpm, by rw [hb]; exact hpe.symm⟩
    · obtain ⟨p, hpm, hpe⟩ := List.mem_map.mp (pyMin_mem (hne (fun p => p.y - p.height / 2)))
      exact ⟨p, hpm, by rw [hb]; exact hpe.symm⟩
    · obtain ⟨p, hpm, hpe⟩ := List.mem_map.mp (pyMax_mem (hne (fun p => p.x + p.width / 2)))
      exact ⟨p, hpm, by rw [hb]; exact hpe.symm⟩
    · obtain ⟨p, hpm, hpe⟩ := List.mem_map.mp (pyMax_mem (hne (fun p => p.y + p.height / 2)))
      exact ⟨p, hpm, by rw [hb]; exact hpe.symm⟩

/-- Witness for Claim C10: the theorem applied to a concrete padless
footprint. -/
theorem get_bounds_spec_witness :
    Footprint.get_bounds { name := "EMPTY" } = (0, 0, 0, 0) :=
  (get_bounds_spec { name := "EMPTY" }).1 rfl

/-- Claim C1 (counterexample): a Pad with non-positive dimensions and an
empty designator is accepted by the pydantic constructor, and so is an
Outline with a non-positive width — the claimed dimension/designator
invariants are not enforced at construction. -/
theorem construction_counterexample :
    (mkPad "" 0 0 (-1) (-1) 0 PadShape.rectangular PadType.smd none 1).isSome = true
    ∧ (mkOutline (-1) 0 (15/100)).isSome = true := by decide

/-- Claim C1 (amended): construction of a Pad fails exactly when its
confidence lies outside the range 0..1; Drill, Via and Outline
construction never fails — non-positive dimensions and empty designators
are accepted. -/
theorem construction_validation (designator : String) (x y width height rotation : ℚ)
    (shape : PadShape) (pad_type : PadType) (drill : Option Drill) (confidence : ℚ)
    (d w h lw vx vy vd vdd : ℚ) (slo : Option ℚ) (dt : DrillType) :
    ((mkPad designator x y width height rotation shape pad_type drill confidence).isSome
      ↔ (0 ≤ confidence ∧ confidence ≤ 1))
    ∧ (mkDrill d slo dt).isSome = true
    ∧ (mkVia vx vy vd vdd).isSome = true
    ∧ (mkOutline w h lw).isSome = true := by
  refine ⟨?_, rfl, rfl, rfl⟩
  by_cases hc : 0 ≤ confidence ∧ confidence ≤ 1 <;> simp [mkPad, hc]

/-!
Record-ID bookkeeping lemmas for the generator.
-/

@[simp] lemma recordIds_nil : recordIds [] = [] := rfl

@[simp] lemma recordIds_append (l1 l2 : List Line) :
    recordIds (l1 ++ l2) = recordIds l1 ++ recordIds l2 :=
  List.filterMap_append l1 l2 _

@[simp] lemma recordIds_text (s : String) (ls : List Line) :
    recordIds (Line.text s :: ls) = recordIds ls := rfl

@[simp] lemma recordIds_sec (n : String) (ls : List Line) :
    recordIds (Line.sec n :: ls) = recordIds ls := rfl

@[simp] lemma recordIds_kvStr (k v : String) (ls : List Line) :
    recordIds (Line.kvStr k v :: ls) = recordIds ls := rfl

@[simp] lemma recordIds_kvCoord (k : String) (q : ℚ) (ls : List Line) :
    recordIds (Line.kvCoord k q :: ls) = recordIds ls := rfl

@[simp] lemma recordIds_kvDim (k : String) (q : ℚ) (ls : List Line) :
    recordIds (Line.kvDim k q :: ls) = recordIds ls := rfl

@[simp] lemma recordIds_kvRot (k : String) (q : ℚ) (ls : List Line) :
    recordIds (Line.kvRot k q :: ls) = recordIds ls := rfl

@[simp] lemma recordIds_blank (ls : List Line) :
    recordIds (Line.blank :: ls) = recordIds ls := rfl

@[simp] lemma recordIds_rid (n : ℕ) (ls : List Line) :
    recordIds (Line.kvInt "RecordID" n :: ls) = n :: recordIds ls := rfl

lemma writeComponentRecord_ids (f : Footprint) (rid : ℕ) :
    recordIds (writeComponentRecord f rid).1 = [rid + 1] := by
  by_cases h : f.description = "" <;> simp [writeComponentRecord, h]

lemma writeDrillInfo_ids (d : Drill) : recordIds (writeDrillInfo d) = [] := by
  by_cases h : d.drill_type = DrillType.slot ∧ pyTruthyQ d.slot_length <;>
    simp [writeDrillInfo, h]

lemma writePadRecord_ids (p : Pad) (rid : ℕ) :
    recordIds (writePadRecord p rid).1 = [rid + 1] := by
  rcases hpt : p.pad_type <;> rcases hd : p.drill <;>
    simp [writePadRecord, hpt, hd, writeDrillInfo_ids]

lemma writePadRecord_snd (p : Pad) (rid : ℕ) : (writePadRecord p rid).2 = rid + 1 := rfl

lemma writePadList_ids (ps : List Pad) : ∀ rid : ℕ,
    recordIds (writePadList ps rid).1 = List.range' (rid + 1) ps.length
    ∧ (writePadList ps rid).2 = rid + ps.length := by
  induction ps with
  | nil => intro rid; simp [writePadList]
  | cons p ps ih =>
    intro rid
    obtain ⟨ih1, ih2⟩ := ih (rid + 1)
    constructor
    · simp only [writePadList, recordIds_append, writePadRecord_ids,
        writePadRecord_snd, ih1, List.length_cons, List.range'_succ]
      rfl
    · simp only [writePadList, writePadRecord_snd, ih2, List.length_cons]
      omega

lemma writeViaRecord_ids (v : Via) (rid : ℕ) :
    recordIds (writeViaRecord v rid).1 = [rid + 1] := rfl

lemma writeViaRecord_snd (v : Via) (rid : ℕ) : (writeViaRecord v rid).2 = rid + 1 := rfl

lemma writeViaList_ids (vs : List Via) : ∀ rid : ℕ,
    recordIds (writeViaList vs rid).1 = List.range' (rid + 1) vs.length
    ∧ (writeViaList vs rid).2 = rid + vs.length := by
  induction vs with
  | nil => intro rid; simp [writeViaList]
  | cons v vs ih =>
    intro rid
    obtain ⟨ih1, ih2⟩ := ih (rid + 1)
    constructor
    · simp only [writeViaList, recordIds_append, writeViaRecord_ids,
        writeViaRecord_snd, ih1, List.length_cons, List.range'_succ]
      rfl
    · simp only [writeViaList, writeViaRecord_snd, ih2, List.length_cons]
      omega

lemma recordIds_writeHeader : recordIds writeHeader = [] := rfl

lemma recordIds_writeFooter : recordIds writeFooter = [] := rfl

lemma writeOutlineTracks_ids (o : Outline) (rid : ℕ) :
    recordIds (writeOutlineTracks o rid).1 = List.range' (rid + 1) 4
    ∧ (writeOutlineTracks o rid).2 = rid + 4 := by
  constructor
  · simp [writeOutlineTracks, writeTrack, List.range'_succ]
  · rfl

lemma findPin1_nil (f : Footprint) (h : f.pads = []) : findPin1 f = none := by
  simp [findPin1, h]

lemma findPin1_ne_nil (f : Footprint) (h : f.pads ≠ []) : (findPin1 f).isSome := by
  unfold findPin1
  cases hf : f.pads.find? (fun p => p.designator = "1") with
  | some p => rfl
  | none =>
    cases hp : f.pads with
    | nil => exact absurd hp h
    | cons a t => simp [hp]

lemma writePin1_ids_nil (f : Footprint) (rid : ℕ) (h : f.pads = []) :
    writePin1Indicator f rid = ([], rid) := by
  simp [writePin1Indicator, findPin1_nil f h]

lemma writePin1_ids_ne_nil (f : Footprint) (rid : ℕ) (h : f.pads ≠ []) :
    recordIds (writePin1Indicator f rid).1 = [rid + 1]
    ∧ (writePin1Indicator f rid).2 = rid + 1 := by
  have hs := findPin1_ne_nil f h
  cases hf : findPin1 f with
  | none => rw [hf] at hs; cases hs
  | some p => simp [writePin1Indicator, hf]

lemma range'_glue (s a c b : ℕ) (h : c = s + a) :
    List.range' s a ++ List.range' c b = List.range' s (a + b) := by
  subst h
  rw [List.range'_append_1, Nat.add_comm]

lemma generate_ids (f : Footprint) (rid : ℕ) :
    recordIds (generate f rid).1 = List.range' (rid + 1) (expectedCount f) := by
  obtain ⟨hp1, hp2⟩ := writePadList_ids f.pads (rid + 1)
  obtain ⟨hv1, hv2⟩ := writeViaList_ids f.vias (rid + 1 + f.pads.length)
  have hc2 : (writeComponentRecord f rid).2 = rid + 1 := rfl
  cases ho : f.outline with
  | none =>
    simp only [generate, ho, hc2, hp2, hv2, recordIds_append,
      writeComponentRecord_ids f rid, recordIds_writeHeader, recordIds_writeFooter,
      hp1, hv1, recordIds_nil, List.append_nil, List.nil_append, List.append_assoc]
    rw [show [rid + 1] = List.range' (rid + 1) 1 from rfl,
      range'_glue _ _ _ _ (by omega), range'_glue _ _ _ _ (by omega)]
    have h : 1 + (f.pads.length + f.vias.length) = expectedCount f := by
      simp [expectedCount, ho]
      omega
    rw [h]
  | some o =>
    obtain ⟨ht1, ht2⟩ := writeOutlineTracks_ids o (rid + 1 + f.pads.length + f.vias.length)
    by_cases hpads : f.pads = []
    · have ha := writePin1_ids_nil f (rid + 1 + f.pads.length + f.vias.length + 4) hpads
      simp only [generate, ho, hc2, hp2, hv2, ht2, ha, recordIds_append,
        writeComponentRecord_ids f rid, recordIds_writeHeader, recordIds_writeFooter,
        hp1, hv1, ht1, recordIds_nil,
        List.append_nil, List.nil_append, List.append_assoc]
      rw [show [rid + 1] = List.range' (rid + 1) 1 from rfl,
        range'_glue _ _ _ _ (by omega), range'_glue _ _ _ _ (by omega),
        range'_glue _ _ _ _ (by omega)]
      have h : 1 + (f.pads.length + (f.vias.length + 4)) = expectedCount f := by
        simp [expectedCount, ho, hpads]
        omega
      rw [h]
    · obtain ⟨ha1, ha2⟩ :=
        writePin1_ids_ne_nil f (rid + 1 + f.pads.length + f.vias.length + 4) hpads
      simp only [generate, ho, hc2, hp2, hv2, ht2, ha1, recordIds_append,
        writeComponentRecord_ids f rid, recordIds_writeHeader, recordIds_writeFooter,
        hp1, hv1, ht1, recordIds_nil,
        List.append_nil, List.nil_append, List.append_assoc]
      rw [show [rid + 1] = List.range' (rid + 1) 1 from rfl,
        show [rid + 1 + f.pads.length + f.vias.length + 4 + 1] =
          List.range' (rid + 1 + f.pads.length + f.vias.length + 4 + 1) 1 from rfl,
        range'_glue _ _ _ _ (by omega), range'_glue _ _ _ _ (by omega),
        range'_glue _ _ _ _ (by omega), range'_glue _ _ _ _ (by omega)]
      have h : 1 + (f.pads.length + (f.vias.length + (4 + 1))) = expectedCount f := by
        simp [expectedCount, ho, hpads]
        omega
      rw [h]

/-- Claim C2 (amended): the record IDs of an emission are exactly 1..N
with no gaps or repeats, where N = 1 component + pads + vias + (4 Track
records, plus 1 Arc record only when the pad list is nonempty) when an
outline is present; with an outline and an empty pad list the Arc record
— and its ID — is absent, so N = 1 + vias + 4 there. -/
theorem record_ids_exact (f : Footprint) :
    recordIds (generate_pcblib f) =
      List.range' 1 (1 + f.pads.length + f.vias.length +
        (match f.outline with
         | some _ => 4 + (if f.pads = [] then 0 else 1)
         | none => 0)) :=
  generate_ids f 0

/-- Claim C2 (counterexample): for a footprint with an outline and an
empty pad list the emission carries record IDs 1..5 (no Arc record), not
1..6 as the claimed formula N = 1 + pads + vias + (4+1) demands. -/
theorem record_ids_counterexample :
    recordIds (generate_pcblib outlineOnlyFp) ≠
      List.range' 1 (1 + outlineOnlyFp.pads.length + outlineOnlyFp.vias.length + 5) := by
  decide

/-- Claim C9 (confirmed): emission is a pure function of the footprint —
two emissions of the same footprint are byte-identical — and each
emission's record-ID counter restarts at 1 (generate_pcblib builds a
fresh generator whose counter starts at 0, so the first record ID is
always 1). -/
theorem emit_deterministic (f : Footprint) :
    emit_ascii f = emit_ascii f
    ∧ (recordIds (generate_pcblib f)).head? = some 1 := by
  refine ⟨rfl, ?_⟩
  rw [generate_pcblib, generate_ids f 0]
  have h : expectedCount f = (expectedCount f - 1) + 1 := by
    simp [expectedCount]
    omega
  rw [h, List.range'_succ]
  rfl

/-!
Arc-counting lemmas for the Pin-1 indicator claim.
-/

@[simp] lemma countArcs_nil : countArcs [] = 0 := rfl

@[simp] lemma countArcs_append (l1 l2 : List Line) :
    countArcs (l1 ++ l2) = countArcs l1 + countArcs l2 := by
  simp [countArcs, List.filter_append]

@[simp] lemma countArcs_text (s : String) (ls : List Line) :
    countArcs (Line.text s :: ls) = countArcs ls := rfl

@[simp] lemma countArcs_kvInt (k : String) (n : ℕ) (ls : List Line) :
    countArcs (Line.kvInt k n :: ls) = countArcs ls := rfl

@[simp] lemma countArcs_kvStr (k v : String) (ls : List Line) :
    countArcs (Line.kvStr k v :: ls) = countArcs ls := rfl

@[simp] lemma countArcs_kvCoord (k : String) (q : ℚ) (ls : List Line) :
    countArcs (Line.kvCoord k q :: ls) = countArcs ls := rfl

@[simp] lemma countArcs_kvDim (k : String) (q : ℚ) (ls : List Line) :
    countArcs (Line.kvDim k q :: ls) = countArcs ls := rfl

@[simp] lemma countArcs_kvRot (k : String) (q : ℚ) (ls : List Line) :
    countArcs (Line.kvRot k q :: ls) = countArcs ls := rfl

@[simp] lemma countArcs_blank (ls : List Line) :
    countArcs (Line.blank :: ls) = countArcs ls := rfl

@[simp] lemma countArcs_sec_component (ls : List Line) :
    countArcs (Line.sec "Component" :: ls) = countArcs ls := rfl

@[simp] lemma countArcs_sec_pad (ls : List Line) :
    countArcs (Line.sec "Pad" :: ls) = countArcs ls := rfl

@[simp] lemma countArcs_sec_via (ls : List Line) :
    countArcs (Line.sec "Via" :: ls) = countArcs ls := rfl

@[simp] lemma countArcs_sec_track (ls : List Line) :
    countArcs (Line.sec "Track" :: ls) = countArcs ls := rfl

@[simp] lemma countArcs_sec_arc (ls : List Line) :
    countArcs (Line.sec "Arc" :: ls) = countArcs ls + 1 := by
  simp [countArcs, List.filter_cons]

lemma countArcs_header : countArcs writeHeader = 0 := rfl

lemma countArcs_footer : countArcs writeFooter = 0 := rfl

lemma countArcs_component (f : Footprint) (rid : ℕ) :
    countArcs (writeComponentRecord f rid).1 = 0 := by
  by_cases h : f.description = "" <;> simp [writeComponentRecord, h]

lemma countArcs_drillInfo (d : Drill) : countArcs (writeDrillInfo d) = 0 := by
  by_cases h : d.drill_type = DrillType.slot ∧ pyTruthyQ d.slot_length <;>
    simp [writeDrillInfo, h]

lemma countArcs_padRecord (p : Pad) (rid : ℕ) :
    countArcs (writePadRecord p rid).1 = 0 := by
  rcases hpt : p.pad_type <;> rcases hd : p.drill <;>
    simp [writePadRecord, hpt, hd, countArcs_drillInfo]

lemma countArcs_padList (ps : List Pad) : ∀ rid : ℕ,
    countArcs (writePadList ps rid).1 = 0 := by
  induction ps with
  | nil => intro rid; simp [writePadList]
  | cons p ps ih =>
    intro rid
    simp [writePadList, countArcs_padRecord, ih]

lemma countArcs_viaRecord (v : Via) (rid : ℕ) :
    countArcs (writeViaRecord v rid).1 = 0 := rfl

lemma countArcs_viaList (vs : List Via) : ∀ rid : ℕ,
    countArcs (writeViaList vs rid).1 = 0 := by
  induction vs with
  | nil => intro rid; simp [writeViaList]
  | cons v vs ih =>
    intro rid
    simp [writeViaList, countArcs_viaRecord, ih]

lemma countArcs_tracks (o : Outline) (rid : ℕ) :
    countArcs (writeOutlineTracks o rid).1 = 0 := by
  simp [writeOutlineTracks, writeTrack]

lemma indicatorX_eq (x : ℚ) :
    indicatorX x = x + (if x < 0 then -(1/2 : ℚ) else 1/2) := by
  unfold indicatorX
  split <;> ring

lemma indicatorY_eq (y : ℚ) :
    indicatorY y = y + (if 0 < y then (1/2 : ℚ) else -(1/2)) := by
  unfold indicatorY
  split <;> ring

lemma findPin1_eq (f : Footprint) (p : Pad) (ps : List Pad) (h : f.pads = p :: ps) :
    findPin1 f = some (pin1Choice f p) := by
  unfold findPin1 pin1Choice
  cases hf : f.pads.find? (fun q => q.designator = "1") with
  | some q => rfl
  | none => simp [h]

/-- Claim C7 (confirmed): with an outline present, no Arc record is
emitted when the pad list is empty; otherwise exactly one Arc record is
emitted, for the pad with designator "1" (or the first pad when absent),
centred at the pad centre offset 0.5mm away from the origin along each
axis by the sign of the pad coordinate, as a 0-to-360-degree circle of
radius 0.25mm and stroke width 0.15mm on the silkscreen (Top Overlay)
layer. -/
theorem pin1_indicator_spec (f : Footprint) (o : Outline) (ho : f.outline = some o) :
    (f.pads = [] → countArcs (generate_pcblib f) = 0)
    ∧ (∀ p ps, f.pads = p :: ps →
        countArcs (generate_pcblib f) = 1
        ∧ (∃ pre suf rid,
            generate_pcblib f =
              pre ++
              [Line.sec "Arc", Line.kvInt "RecordID" rid,
               Line.kvStr "Layer" "Top Overlay",
               Line.kvCoord "X"
                 ((pin1Choice f p).x + (if (pin1Choice f p).x < 0 then -(1/2 : ℚ) else 1/2)),
               Line.kvCoord "Y"
                 ((pin1Choice f p).y + (if 0 < (pin1Choice f p).y then (1/2 : ℚ) else -(1/2))),
               Line.text "Radius=0.25mm", Line.text "StartAngle=0",
               Line.text "EndAngle=360", Line.text "Width=0.15mm", Line.blank]
              ++ suf)) := by
  constructor
  · intro h
    have ha := writePin1_ids_nil f (writeOutlineTracks o (writeViaList f.vias
      (writePadList f.pads (writeComponentRecord f 0).2).2).2).2 h
    simp [generate_pcblib, generate, ho, ha, countArcs_header, countArcs_footer,
      countArcs_component, countArcs_padList, countArcs_viaList, countArcs_tracks]
  · intro p ps h
    have hne : f.pads ≠ [] := by rw [h]; simp
    have hfp := findPin1_eq f p ps h
    constructor
    · simp [generate_pcblib, generate, ho, writePin1Indicator, hfp,
        countArcs_header, countArcs_footer, countArcs_component,
        countArcs_padList, countArcs_viaList, countArcs_tracks]
    · refine ⟨writeHeader ++ (writeComponentRecord f 0).1
        ++ (writePadList f.pads (writeComponentRecord f 0).2).1
        ++ (writeViaList f.vias (writePadList f.pads (writeComponentRecord f 0).2).2).1
        ++ (writeOutlineTracks o (writeViaList f.vias
              (writePadList f.pads (writeComponentRecord f 0).2).2).2).1,
        writeFooter,
        (writeOutlineTracks o (writeViaList f.vias
          (writePadList f.pads (writeComponentRecord f 0).2).2).2).2 + 1, ?_⟩
      simp [generate_pcblib, generate, ho, writePin1Indicator, hfp,
        indicatorX_eq, indicatorY_eq, List.append_assoc]

/-- Witness for Claim C7: applied to a concrete padless footprint with
an outline, no Arc record is emitted. -/
theorem pin1_indicator_spec_witness :
    countArcs (generate_pcblib arcFreeFp) = 0 :=
  (pin1_indicator_spec arcFreeFp { width := 4, height := 4 } rfl).1 rfl

/-!
Drill-block lemmas.
-/

lemma writePadList_decomp (p : Pad) : ∀ (ps : List Pad), p ∈ ps → ∀ r : ℕ,
    ∃ rid pre suf, (writePadList ps r).1 = pre ++ (writePadRecord p rid).1 ++ suf := by
  intro ps
  induction ps with
  | nil => intro h; cases h
  | cons q qs ih =>
    intro h r
    rcases List.mem_cons.mp h with rfl | hm
    · exact ⟨r, [], (writePadList qs (writePadRecord p r).2).1, by simp [writePadList]⟩
    · obtain ⟨rid, pre, suf, heq⟩ := ih hm (writePadRecord q r).2
      exact ⟨rid, (writePadRecord q r).1 ++ pre, suf,
        by simp [writePadList, heq, List.append_assoc]⟩

lemma generate_pad_decomp (f : Footprint) (p : Pad) (hp : p ∈ f.pads) :
    ∃ rid pre suf, generate_pcblib f = pre ++ (writePadRecord p rid).1 ++ suf := by
  obtain ⟨rid, pre, suf, heq⟩ :=
    writePadList_decomp p f.pads hp (writeComponentRecord f 0).2
  cases ho : f.outline with
  | none =>
    refine ⟨rid, writeHeader ++ (writeComponentRecord f 0).1 ++ pre,
      suf ++ (writeViaList f.vias (writePadList f.pads (writeComponentRecord f 0).2).2).1
        ++ writeFooter, ?_⟩
    simp [generate_pcblib, generate, ho, heq, List.append_assoc]
  | some o =>
    refine ⟨rid, writeHeader ++ (writeComponentRecord f 0).1 ++ pre,
      suf ++ (writeViaList f.vias (writePadList f.pads (writeComponentRecord f 0).2).2).1
        ++ ((writeOutlineTracks o (writeViaList f.vias
              (writePadList f.pads (writeComponentRecord f 0).2).2).2).1
            ++ (writePin1Indicator f (writeOutlineTracks o (writeViaList f.vias
                  (writePadList f.pads (writeComponentRecord f 0).2).2).2).2).1)
        ++ writeFooter, ?_⟩
    simp [generate_pcblib, generate, ho, heq, List.append_assoc]

/-- Claim C8 (amended): a pad record carries a drill block (HoleSize
key) iff the pad is through-hole and carries a Drill — SMD pads never do
— and the SlotLength key appears iff additionally the drill kind is
Slot and its slot length is present AND non-zero (Python truthiness);
a Round drill never emits SlotLength.  The last clause places each
pad's record inside the full emission. -/
theorem drill_block_spec (p : Pad) (rid : ℕ) :
    ((∃ q, Line.kvDim "HoleSize" q ∈ (writePadRecord p rid).1)
      ↔ (p.pad_type = PadType.through_hole ∧ p.drill.isSome))
    ∧ ((∃ q, Line.kvDim "SlotLength" q ∈ (writePadRecord p rid).1)
      ↔ (p.pad_type = PadType.through_hole ∧
          ∃ d, p.drill = some d ∧ d.drill_type = DrillType.slot ∧ pyTruthyQ d.slot_length))
    ∧ (∀ f : Footprint, p ∈ f.pads →
        ∃ r pre suf, generate_pcblib f = pre ++ (writePadRecord p r).1 ++ suf) := by
  refine ⟨?_, ?_, fun f hp => generate_pad_decomp f p hp⟩
  · rcases hpt : p.pad_type <;> rcases hd : p.drill with _ | d
    · simp [writePadRecord, hpt, hd]
    · simp [writePadRecord, hpt, hd]
    · simp [writePadRecord, hpt, hd]
    · by_cases hsl : d.drill_type = DrillType.slot ∧ pyTruthyQ d.slot_length <;>
        simp [writePadRecord, writeDrillInfo, hpt, hd, hsl]
  · rcases hpt : p.pad_type <;> rcases hd : p.drill with _ | d
    · simp [writePadRecord, hpt, hd]
    · simp [writePadRecord, hpt, hd]
    · simp [writePadRecord, hpt, hd]
    · by_cases hsl : d.drill_type = DrillType.slot ∧ pyTruthyQ d.slot_length
      · simp [writePadRecord, writeDrillInfo, hpt, hd, hsl]
      · simp only [not_and] at hsl
        by_cases hdt : d.drill_type = DrillType.slot
        · simp [writePadRecord, writeDrillInfo, hpt, hd, hdt, hsl hdt]
        · simp [writePadRecord, writeDrillInfo, hpt, hd, hdt]

/-- Witness for Claim C8: the theorem applied to a concrete round-drill
through-hole pad produces a drill block. -/
theorem drill_block_spec_witness :
    ((writePadRecord roundDrillPad 0).1.any (fun l =>
      match l with
      | Line.kvDim "HoleSize" _ => true
      | _ => false)) = true := by
  obtain ⟨q, hq⟩ := (drill_block_spec roundDrillPad 0).1.mpr (by decide)
  exact List.any_eq_true.mpr ⟨_, hq, rfl⟩

/-- Claim C8 (counterexample): a Slot drill with present slot length 0.0
emits DrillType=Round and no SlotLength key, though the claim (slot kind
plus present slot length) demands SlotLength. -/
theorem drill_block_counterexample :
    slotZeroPad.drill = some { diameter := 1, slot_length := some 0,
                               drill_type := DrillType.slot }
    ∧ ((writePadRecord slotZeroPad 0).1.any (fun l =>
        match l with
        | Line.kvDim "SlotLength" _ => true
        | _ => false)) = false
    ∧ Line.kvStr "DrillType" "Round" ∈ (writePadRecord slotZeroPad 0).1 := by
  decide

/-- Claim C3 (amended): in the extraction normalizer, missing numeric
pad fields (x, y, width, height, rotation) default to 0.0 and the pad
confidence is the pydantic default 1.0; for vias, missing x and y
default to 0.0 but a missing outer diameter defaults to 0.6 and a
missing drill diameter to 0.3 (not 0.0); a missing overall extraction
confidence defaults to 0.5 — so the pad-level and extraction-level
confidence defaults differ. -/
theorem extraction_defaults :
    (∀ rp : RawPad,
       (rp.x = none → (convPad rp).x = 0)
       ∧ (rp.y = none → (convPad rp).y = 0)
       ∧ (rp.width = none → (convPad rp).width = 0)
       ∧ (rp.height = none → (convPad rp).height = 0)
       ∧ (rp.rotation = none → (convPad rp).rotation = 0)
       ∧ (convPad rp).confidence = 1)
    ∧ (∀ rv : RawVia,
       (rv.x = none → (convVia rv).x = 0)
       ∧ (rv.y = none → (convVia rv).y = 0)
       ∧ (rv.outer_diameter = none → (convVia rv).diameter = 6/10)
       ∧ (rv.drill_diameter = none → (convVia rv).drill_diameter = 3/10))
    ∧ (∀ (r : RawResponse) (fp : Footprint) (er : ExtractionResult),
        responseToFootprint r = some (fp, er) →
        er.pads = (r.pads.getD []).map convPad
        ∧ er.vias = (r.vias.getD []).map convVia
        ∧ (r.overall_confidence = none → er.overall_confidence = 1/2)) := by
  refine ⟨?_, ?_, ?_⟩
  · intro rp
    exact ⟨fun h => by simp [convPad, h], fun h => by simp [convPad, h],
      fun h => by simp [convPad, h], fun h => by simp [convPad, h],
      fun h => by simp [convPad, h], by simp [convPad]⟩
  · intro rv
    exact ⟨fun h => by simp [convVia, h], fun h => by simp [convVia, h],
      fun h => by simp [convVia, h], fun h => by simp [convVia, h]⟩
  · intro r fp er h
    unfold responseToFootprint at h
    simp only [Option.bind_eq_bind, Option.bind_eq_some, Option.pure_def,
      Option.some.injEq, Prod.mk.injEq] at h
    obtain ⟨er2, hmk, hfp, her⟩ := h
    unfold mkExtractionResult at hmk
    split at hmk
    · obtain her2 := Option.some.inj hmk
      subst her
      rw [← her2]
      refine ⟨rfl, rfl, fun hnone => by simp [hnone]⟩
    · cases hmk

/-- Witness for Claim C3: the theorem applied to an all-missing raw pad
and raw via. -/
theorem extraction_defaults_witness :
    (convPad {}).x = 0 ∧ (convVia {}).diameter = 6/10 :=
  ⟨(extraction_defaults.1 {}).1 rfl, (extraction_defaults.2.1 {}).2.2.1 rfl⟩

/-- Claim C3 (counterexample): a via with all fields missing normalizes
to outer diameter 0.6 and drill diameter 0.3, not the claimed 0.0
default. -/
theorem extraction_defaults_counterexample :
    (responseToFootprint rawViaOnly).map (fun pr => pr.2.vias) =
      some [{ x := 0, y := 0, diameter := 6/10, drill_diameter := 3/10 }]
    ∧ ((6:ℚ)/10 ≠ 0) := by
  refine ⟨?_, by norm_num⟩
  norm_num [responseToFootprint, rawViaOnly, mkExtractionResult, convVia,
    pyTruthyS]

/-- Claim C4 (amended): apply_corrections returns the input extraction
unchanged when the verification is verified AND flags no dimension
correction; an unverified verification without a dimension correction
does NOT return the input unchanged (see the counterexample), so the
verified flag is part of the condition. -/
theorem apply_no_correction_identity (e : ExtractionResult) (v : VerificationResult)
    (hv : v.verified = true) (hc : v.pad_dimensions_corrected = false) :
    apply_corrections e v = some e := by
  simp [apply_corrections, hv, hc]

/-- Witness for Claim C4: a verified, correction-free verification
leaves an empty extraction unchanged. -/
theorem apply_no_correction_identity_witness :
    apply_corrections {} { verified := true } = some ({} : ExtractionResult) :=
  apply_no_correction_identity {} { verified := true } rfl rfl

/-- Claim C4 (counterexample): an unverified verification that produced
no dimension correction still rewrites the extraction — every pad's
confidence is replaced by the verification confidence (0.0 here), so the
result differs from the input. -/
theorem apply_no_correction_counterexample :
    unverifiedRes.pad_dimensions_corrected = false
    ∧ apply_corrections onePadEx unverifiedRes ≠ some onePadEx
    ∧ (apply_corrections onePadEx unverifiedRes).map
        (fun r => r.pads.map (fun p => p.confidence)) = some [0]
    ∧ onePadEx.pads.map (fun p => p.confidence) = [1] := by
  decide

lemma correctedPadsList_spec (v : VerificationResult) (h0 : 0 ≤ v.confidence)
    (h1 : v.confidence ≤ 1) (ps : List Pad) :
    ∃ qs, correctedPadsList v ps = some qs
      ∧ List.Forall₂ (CorrectedPadRel v) ps qs := by
  induction ps with
  | nil => exact ⟨[], rfl, List.Forall₂.nil⟩
  | cons p ps ih =>
    obtain ⟨qs, hqs, hf⟩ := ih
    by_cases ht : isThermal p = true
    · refine ⟨p :: qs, by simp [correctedPadsList, ht, hqs], ?_⟩
      exact List.Forall₂.cons ⟨fun _ => rfl, fun hff => by rw [ht] at hff; cases hff⟩ hf
    · rw [Bool.not_eq_true] at ht
      refine ⟨{ designator := p.designator, x := p.x, y := p.y,
                width := pyOrQ v.corrected_pad_width p.width,
                height := pyOrQ v.corrected_pad_height p.height,
                rotation := p.rotation, shape := p.shape, pad_type := p.pad_type,
                drill := p.drill, confidence := v.confidence } :: qs,
        by simp [correctedPadsList, ht, mkPad, h0, h1, hqs], ?_⟩
      refine List.Forall₂.cons ⟨fun htt => absurd htt (by simp [ht]), fun _ => ?_⟩ hf
      exact ⟨rfl, rfl, rfl, rfl, rfl, rfl, rfl, rfl, rfl, rfl⟩

/-- Claim C5 (amended): when the verification carries a dimension
correction (and its confidence is a valid pydantic confidence),
apply_corrections rebuilds every non-thermal pad with width =
corrected_pad_width when present AND non-zero (Python `or`), else the
original width — likewise for height — leaving position, rotation,
shape, mount type and drill untouched and replacing the pad confidence
with the verification confidence; thermal-aliased pads pass through
unmodified; warnings are appended to, never replaced, and the overall
confidence becomes the verification confidence. -/
theorem apply_correction_rebuild (e : ExtractionResult) (v : VerificationResult)
    (hcorr : v.pad_dimensions_corrected = true)
    (h0 : 0 ≤ v.confidence) (h1 : v.confidence ≤ 1) :
    ∃ e2, apply_corrections e v = some e2
      ∧ List.Forall₂ (CorrectedPadRel v) e.pads e2.pads
      ∧ e2.warnings.take e.warnings.length = e.warnings
      ∧ e2.warnings = e.warnings ++ correctionWarnings v
      ∧ e2.overall_confidence = v.confidence := by
  obtain ⟨qs, hqs, hf⟩ := correctedPadsList_spec v h0 h1 e.pads
  refine ⟨{ package_type := e.package_type, standard_detected := e.standard_detected,
            units := e.units, pads := qs, vias := e.vias,
            pin1_detected := e.pin1_detected, pin1_index := e.pin1_index,
            outline := e.outline, overall_confidence := v.confidence,
            warnings := e.warnings ++ correctionWarnings v },
    ?_, hf, ?_, rfl, rfl⟩
  · simp [apply_corrections, hcorr, hqs, mkExtractionResult, h0, h1]
  · exact List.take_left e.warnings (correctionWarnings v)

/-- Witness for Claim C5: a correction applies successfully to a
concrete extraction with a thermal pad. -/
theorem apply_correction_rebuild_witness :
    (apply_corrections thermalCaseEx widthCorrRes).isSome = true := by
  obtain ⟨e2, h2, -⟩ :=
    apply_correction_rebuild thermalCaseEx widthCorrRes rfl (by decide) (by decide)
  rw [h2]
  rfl

/-- Claim C5 (counterexample): with a present corrected width of 0.0 the
rebuilt pad keeps its original width 3 (Python `or` treats 0.0 as
absent), while the claim (width = corrected_pad_width when present)
demands width 0. -/
theorem apply_correction_counterexample :
    zeroWidthCorr.corrected_pad_width = some 0
    ∧ (apply_corrections zeroWidthEx zeroWidthCorr).map
        (fun r => r.pads.map (fun p => p.width)) = some [3]
    ∧ (3:ℚ) ≠ 0 := by decide

/-!
detect_suspicious_values lemmas.
-/

lemma insertPad_length (p : Pad) (l : List Pad) :
    (insertPad p l).length = l.length + 1 := by
  induction l with
  | nil => rfl
  | cons q qs ih =>
    unfold insertPad
    split
    · simp
    · simp [ih]

lemma sortByKey_length (l : List Pad) : (sortByKey l).length = l.length := by
  induction l with
  | nil => rfl
  | cons p ps ih =>
    show (insertPad p (sortByKey ps)).length = ps.length + 1
    rw [insertPad_length, ih]

lemma consecutivePitches_imp_len (l : List Pad) (h : consecutivePitches l ≠ []) :
    2 ≤ l.length := by
  match l with
  | [] => exact absurd rfl h
  | [p] => exact absurd rfl h
  | p :: q :: r => simp [List.length_cons]

lemma pitchSamples_imp (e : ExtractionResult) (h : pitchSamples e ≠ []) :
    2 ≤ (signalPads e).length := by
  have h2 := consecutivePitches_imp_len _ h
  rwa [sortByKey_length] at h2

/-- Claim C6 (amended): detect_suspicious_values returns
needs_check=false whenever fewer than 2 signal pads exist; it returns
needs_check=true when the code's pitch-sample list is nonempty (samples
are consecutive |Δy| in (x,y)-sorted order on the same side, |Δx| <
0.5mm, KEEPING ONLY SAMPLES EXCEEDING 0.1mm) and the first signal pad's
width- or height-to-average-pitch ratio lies in the range 0.90..1.10;
and it returns needs_check=true when no thermal-alias pad is present and
at least 8 signal pads exist. -/
theorem detect_suspicious_spec (e : ExtractionResult) :
    ((signalPads e).length < 2 →
      (detect_suspicious_values e).needs_verification = false)
    ∧ (pitchSamples e ≠ [] →
      ((90/100 ≤ widthRatio e ∧ widthRatio e ≤ 110/100) ∨
       (90/100 ≤ heightRatio e ∧ heightRatio e ≤ 110/100)) →
      (detect_suspicious_values e).needs_verification = true)
    ∧ (hasThermal e = false → 8 ≤ (signalPads e).length →
      (detect_suspicious_values e).needs_verification = true) := by
  refine ⟨?_, ?_, ?_⟩
  · intro hlen
    have hA : ¬(2 ≤ (signalPads e).length) := by omega
    have h8 : ¬(8 ≤ (signalPads e).length) := by omega
    by_cases h1 : e.pads = []
    · simp [detect_suspicious_values, h1]
    · by_cases h2 : signalPads e = []
      · simp [detect_suspicious_values, h1, h2]
      · simp [detect_suspicious_values, h1, h2, hA, h8]
  · intro hp hr
    have hlen2 : 2 ≤ (signalPads e).length := pitchSamples_imp e hp
    have hsne : signalPads e ≠ [] := by
      intro hn
      rw [hn] at hlen2
      simp at hlen2
    have hpne : e.pads ≠ [] := by
      intro hn
      exact hsne (by simp [signalPads, hn])
    by_cases hfin : hasThermal e = false ∧ 8 ≤ (signalPads e).length <;>
      simp [detect_suspicious_values, hpne, hsne, hlen2, hp, hr, hfin]
  · intro hth h8
    have hsne : signalPads e ≠ [] := by
      intro hn
      rw [hn] at h8
      simp at h8
    have hpne : e.pads ≠ [] := by
      intro hn
      exact hsne (by simp [signalPads, hn])
    simp [detect_suspicious_values, hpne, hsne, hth, h8]

/-- Witness for Claim C6: the theorem fires on a concrete 8-pad
extraction with no thermal pad, and on a concrete width≈pitch
extraction. -/
theorem detect_suspicious_spec_witness :
    (detect_suspicious_values eightPadEx).needs_verification = true
    ∧ (detect_suspicious_values twoPadEx).needs_verification = true := by
  constructor
  · exact (detect_suspicious_spec eightPadEx).2.2 (by decide) (by decide)
  · refine (detect_suspicious_spec twoPadEx).2.1 ?_ (Or.inl ?_)
    · norm_num +decide [pitchSamples, sortByKey, insertPad, padKeyLe, signalPads,
        isThermal, thermalAliases, consecutivePitches, twoPadEx, List.filter_cons]
    · constructor <;>
        norm_num +decide [widthRatio, avgPitch, pitchSamples, sortByKey, insertPad,
          padKeyLe, signalPads, isThermal, thermalAliases, consecutivePitches,
          twoPadEx, List.filter_cons]

/-- Claim C6 (counterexample): on pitchGapEx the claim's own pitch
definition gives 0.55 and the first signal pad's width-to-pitch ratio is
1.0, inside the window 0.90..1.10, so the claim demands
needs_check=true; detect_suspicious_values returns false. -/
theorem detect_suspicious_counterexample :
    specAvgPitch pitchGapEx = some (11/20)
    ∧ (signalPads pitchGapEx).head?.map (fun p => p.width) = some (11/20)
    ∧ ((90:ℚ)/100 ≤ (11/20) / ((11:ℚ)/20) ∧ ((11:ℚ)/20) / ((11:ℚ)/20) ≤ 110/100)
    ∧ (detect_suspicious_values pitchGapEx).needs_verification = false := by
  have habs : |(1:ℚ)/10| = 1/10 := abs_of_nonneg (by norm_num)
  refine ⟨?_, ?_, by norm_num, ?_⟩
  · norm_num +decide [specAvgPitch, specDyList, sortByKey, insertPad, padKeyLe,
      signalPads, isThermal, thermalAliases, pitchGapEx, List.filter_cons, habs]
  · norm_num +decide [signalPads, isThermal, thermalAliases, pitchGapEx,
      List.filter_cons]
  · norm_num +decide [detect_suspicious_values, signalPads, isThermal,
      thermalAliases, pitchGapEx, pitchSamples, sortByKey, insertPad, padKeyLe,
      consecutivePitches, avgPitch, widthRatio, heightRatio, hasThermal,
      List.filter_cons, habs]

end PCBFoot
